import Mathlib

/-!
Verification of the status-composition core of `spaceapi-server-rs`.

The embedding follows `src/modifiers.rs` (the `StateFromPeopleNowPresent`
modifier) and the `api` data model as it is used by that file and by
`examples/simple.rs`.  Rust's `Option<T>` (the spec's `Optional<T>`:
`Value x ↦ some x`, `Absent ↦ none`) is embedded as Lean's `Option`.
The `u64` sensor value is embedded as `Nat`: the code only compares it
with `0` and `1` and prints it, so no wraparound can occur.
-/

namespace Spaceapi

/-- A people-now-present sensor reading, as constructed in the tests of
`src/modifiers.rs` (`make_pnp_sensor`): optional location label, optional
name, optional list of names, optional description, and a numeric count. -/
structure PeopleNowPresentSensor where
  location : Option String
  name : Option String
  names : Option (List String)
  description : Option String
  value : Nat

/-- Modelled from the spec: the `api` crate that defines the temperature
reading record is not under `src/`; per the spec a sensor reading is
"(kind, optional location label, optional name/names, optional
description, numeric value)". -/
structure TemperatureSensor where
  location : Option String
  name : Option String
  names : Option (List String)
  description : Option String
  value : Float

/-- The sensors container, with the two kinds used in `src/modifiers.rs`. -/
structure Sensors where
  people_now_present : List PeopleNowPresentSensor
  temperature : List TemperatureSensor

/-- The state sub-record: `open: optional bool`, `message: optional string`. -/
structure State where
  «open» : Option Bool
  message : Option String

/-- Location: optional address, required latitude/longitude. -/
structure Location where
  address : Option String
  lat : Float
  lon : Float

/-- Contact channels, each independently optional (`examples/simple.rs`). -/
structure Contact where
  irc : Option String
  twitter : Option String
  foursquare : Option String
  email : Option String

/-- The composed status snapshot, with the fields passed to
`api::Status::new` in `examples/simple.rs` plus the `state` and `sensors`
fields mutated/read by the modifiers. -/
structure Status where
  space : String
  logo : String
  url : String
  location : Location
  contact : Contact
  issue_report_channels : List String
  state : State
  sensors : Option Sensors

/-- The function `StateFromPeopleNowPresent::modify` from
`src/modifiers.rs`: Rust's in-place mutation of the status is embedded
as a `Status → Status` function.
`.as_ref().and_then(|s| s.people_now_present.first())` is
`Option.bind` with `List.head?`, and `format!("{} …", count)` is
`toString count ++ " …"`. -/
def modify (status : Status) : Status :=
  let people_now_present : Option Nat :=
    (status.sensors.bind
        (fun sensors => sensors.people_now_present.head?)).map
      (fun sensor => sensor.value)
  match people_now_present with
  | some count =>
      let status1 : Status :=
        { status with state := { status.state with «open» := some (decide (0 < count)) } }
      if count = 1 then
        { status1 with
            state := { status1.state with
              message := some (toString count ++ " person here right now") } }
      else if 1 < count then
        { status1 with
            state := { status1.state with
              message := some (toString count ++ " people here right now") } }
      else status1
  | none => status

/-- The test fixture of `src/modifiers.rs` (`make_pnp_sensor`). -/
def make_pnp_sensor (value : Nat) : PeopleNowPresentSensor :=
  { location := none, name := none, names := none, description := none, value := value }

/-- A concrete status in the shape of `examples/simple.rs`, parametrised
by the sensors field and the template message, for concrete evaluation. -/
def sampleStatus (sensors : Option Sensors) (msg : Option String) : Status :=
  { space := "coredump"
    logo := "https://www.coredump.ch/logo.png"
    url := "https://www.coredump.ch/"
    location := { address := some "Spinnereistrasse 2, 8640 Rapperswil, Switzerland"
                  lat := 47.22936, lon := 8.82949 }
    contact := { irc := some "irc://freenode.net/#coredump"
                 twitter := some "@coredump_ch", foursquare := none, email := none }
    issue_report_channels := ["email", "twitter"]
    state := { «open» := none, message := msg }
    sensors := sensors }

/-- Sensors holding exactly the given people-now-present readings, as in
the tests of `src/modifiers.rs`. -/
def pnpSensors (readings : List PeopleNowPresentSensor) : Sensors :=
  { people_now_present := readings, temperature := [] }

/-- JSON values of the serialized status document. -/
inductive JsonValue : Type where
  | str : String → JsonValue
  | bool : Bool → JsonValue
  | num : Float → JsonValue
  | arr : List JsonValue → JsonValue
  | obj : List (String × JsonValue) → JsonValue

/-- Modelled from the spec: the serde serialization of the `api` crate is
not under `src/`.  Per the spec, "`Absent` must serialize as
field-omission, never as null": an optional field contributes its key
exactly when it holds a value. -/
def optField (key : String) : Option JsonValue → List (String × JsonValue)
  | some v => [(key, v)]
  | none => []

/-- Modelled from the spec: serialization of a people-now-present
reading (optional metadata omitted when absent, numeric value emitted). -/
def serializePnp (r : PeopleNowPresentSensor) : JsonValue :=
  JsonValue.obj
    (optField "location" (r.location.map JsonValue.str) ++
     optField "name" (r.name.map JsonValue.str) ++
     optField "names" (r.names.map (fun ns => JsonValue.arr (ns.map JsonValue.str))) ++
     optField "description" (r.description.map JsonValue.str) ++
     [("value", JsonValue.num (Float.ofNat r.value))])

/-- Modelled from the spec: serialization of a temperature reading. -/
def serializeTemperature (r : TemperatureSensor) : JsonValue :=
  JsonValue.obj
    (optField "location" (r.location.map JsonValue.str) ++
     optField "name" (r.name.map JsonValue.str) ++
     optField "names" (r.names.map (fun ns => JsonValue.arr (ns.map JsonValue.str))) ++
     optField "description" (r.description.map JsonValue.str) ++
     [("value", JsonValue.num r.value)])

/-- Modelled from the spec: serialization of the sensors container. -/
def serializeSensors (s : Sensors) : JsonValue :=
  JsonValue.obj
    [("people_now_present", JsonValue.arr (s.people_now_present.map serializePnp)),
     ("temperature", JsonValue.arr (s.temperature.map serializeTemperature))]

/-- Modelled from the spec: serialization of the state sub-record
(`state.open`, `state.message`, each independently present or absent). -/
def serializeState (s : State) : List (String × JsonValue) :=
  optField "open" (s.«open».map JsonValue.bool) ++
  optField "message" (s.message.map JsonValue.str)

/-- Modelled from the spec: serialization of the location record
(`location.address` optional, `lat`/`lon` required). -/
def serializeLocation (l : Location) : List (String × JsonValue) :=
  optField "address" (l.address.map JsonValue.str) ++
  [("lat", JsonValue.num l.lat), ("lon", JsonValue.num l.lon)]

/-- Modelled from the spec: serialization of the contact record, each
channel independently optional. -/
def serializeContact (c : Contact) : List (String × JsonValue) :=
  optField "irc" (c.irc.map JsonValue.str) ++
  optField "twitter" (c.twitter.map JsonValue.str) ++
  optField "foursquare" (c.foursquare.map JsonValue.str) ++
  optField "email" (c.email.map JsonValue.str)

/-- Modelled from the spec: serialization of the whole status document
(required top-level fields always emitted, `sensors` omitted when
wholly absent). -/
def serializeStatus (s : Status) : List (String × JsonValue) :=
  [("space", JsonValue.str s.space),
   ("logo", JsonValue.str s.logo),
   ("url", JsonValue.str s.url),
   ("location", JsonValue.obj (serializeLocation s.location)),
   ("contact", JsonValue.obj (serializeContact s.contact)),
   ("issue_report_channels", JsonValue.arr (s.issue_report_channels.map JsonValue.str)),
   ("state", JsonValue.obj (serializeState s.state))] ++
  optField "sensors" (s.sensors.map serializeSensors)

/-- The keys actually present in a serialized object. -/
def keysOf (fields : List (String × JsonValue)) : List String :=
  fields.map Prod.fst

theorem optField_eq_none (key : String) :
    optField key none = [] := rfl

theorem optField_eq_some (key : String) (v : JsonValue) :
    optField key (some v) = [(key, v)] := rfl

theorem lookup_optField (key : String) (o : Option JsonValue) :
    List.lookup key (optField key o) = o := by
  cases o <;> simp [optField, List.lookup]

/-- C1: if the sensors field is present and the people-now-present list
is non-empty with first reading value `v`, then after
`StateFromPeopleNowPresent.modify` the field `state.open` equals
`Value (v > 0)`, regardless of what `state.open` held before. -/
theorem modify_sets_open_from_first_reading
    (s : Status) (sn : Sensors) (r : PeopleNowPresentSensor)
    (rest : List PeopleNowPresentSensor)
    (hs : s.sensors = some sn) (hp : sn.people_now_present = r :: rest) :
    (modify s).state.«open» = some (decide (0 < r.value)) := by
  simp only [modify, hs, hp, Option.some_bind, List.head?_cons, Option.map_some']
  split_ifs <;> rfl

theorem modify_sets_open_from_first_reading_witness :
    (sampleStatus (some (pnpSensors [make_pnp_sensor 0])) none).sensors =
      some (pnpSensors [make_pnp_sensor 0]) ∧
    (pnpSensors [make_pnp_sensor 0]).people_now_present = make_pnp_sensor 0 :: [] ∧
    (modify (sampleStatus (some (pnpSensors [make_pnp_sensor 0])) none)).state.«open» =
      some (decide (0 < (make_pnp_sensor 0).value)) :=
  ⟨rfl, rfl,
    modify_sets_open_from_first_reading
      (sampleStatus (some (pnpSensors [make_pnp_sensor 0])) none)
      (pnpSensors [make_pnp_sensor 0]) (make_pnp_sensor 0) [] rfl rfl⟩

/-- C2: if the first people-now-present reading has value exactly 1,
after `StateFromPeopleNowPresent.modify` the field `state.message`
equals `Value "1 person here right now"` (singular form with count). -/
theorem modify_message_singular
    (s : Status) (sn : Sensors) (r : PeopleNowPresentSensor)
    (rest : List PeopleNowPresentSensor)
    (hs : s.sensors = some sn) (hp : sn.people_now_present = r :: rest)
    (hv : r.value = 1) :
    (modify s).state.message = some "1 person here right now" := by
  simp only [modify, hs, hp, Option.some_bind, List.head?_cons, Option.map_some', hv]
  rfl

theorem modify_message_singular_witness :
    (sampleStatus (some (pnpSensors [make_pnp_sensor 1])) none).sensors =
      some (pnpSensors [make_pnp_sensor 1]) ∧
    (pnpSensors [make_pnp_sensor 1]).people_now_present = make_pnp_sensor 1 :: [] ∧
    (make_pnp_sensor 1).value = 1 ∧
    (modify (sampleStatus (some (pnpSensors [make_pnp_sensor 1])) none)).state.message =
      some "1 person here right now" :=
  ⟨rfl, rfl, rfl,
    modify_message_singular
      (sampleStatus (some (pnpSensors [make_pnp_sensor 1])) none)
      (pnpSensors [make_pnp_sensor 1]) (make_pnp_sensor 1) [] rfl rfl rfl⟩

/-- C3: if the first people-now-present reading has value `v > 1`, after
`StateFromPeopleNowPresent.modify` the field `state.message` equals
`Value ("{v} people here right now")` (plural form with count). -/
theorem modify_message_plural
    (s : Status) (sn : Sensors) (r : PeopleNowPresentSensor)
    (rest : List PeopleNowPresentSensor)
    (hs : s.sensors = some sn) (hp : sn.people_now_present = r :: rest)
    (hv : 1 < r.value) :
    (modify s).state.message = some (toString r.value ++ " people here right now") := by
  have h1 : ¬r.value = 1 := by omega
  simp only [modify, hs, hp, Option.some_bind, List.head?_cons, Option.map_some',
    if_neg h1, if_pos hv]

theorem modify_message_plural_witness :
    (sampleStatus (some (pnpSensors [make_pnp_sensor 2])) none).sensors =
      some (pnpSensors [make_pnp_sensor 2]) ∧
    (pnpSensors [make_pnp_sensor 2]).people_now_present = make_pnp_sensor 2 :: [] ∧
    1 < (make_pnp_sensor 2).value ∧
    (modify (sampleStatus (some (pnpSensors [make_pnp_sensor 2])) none)).state.message =
      some (toString (make_pnp_sensor 2).value ++ " people here right now") ∧
    toString (make_pnp_sensor 2).value ++ " people here right now" =
      "2 people here right now" :=
  ⟨rfl, rfl, by decide,
    modify_message_plural
      (sampleStatus (some (pnpSensors [make_pnp_sensor 2])) none)
      (pnpSensors [make_pnp_sensor 2]) (make_pnp_sensor 2) [] rfl rfl (by decide),
    rfl⟩

/-- C4: if the first people-now-present reading has value 0,
`StateFromPeopleNowPresent.modify` leaves `state.message` exactly as it
was before the call (a pre-existing value is never cleared or
overwritten, an absent message stays absent). -/
theorem modify_message_untouched_on_zero
    (s : Status) (sn : Sensors) (r : PeopleNowPresentSensor)
    (rest : List PeopleNowPresentSensor)
    (hs : s.sensors = some sn) (hp : sn.people_now_present = r :: rest)
    (hv : r.value = 0) :
    (modify s).state.message = s.state.message := by
  simp only [modify, hs, hp, Option.some_bind, List.head?_cons, Option.map_some', hv]
  rfl

theorem modify_message_untouched_on_zero_witness :
    (sampleStatus (some (pnpSensors [make_pnp_sensor 0]))
        (some "This will remain unchanged.")).sensors =
      some (pnpSensors [make_pnp_sensor 0]) ∧
    (pnpSensors [make_pnp_sensor 0]).people_now_present = make_pnp_sensor 0 :: [] ∧
    (make_pnp_sensor 0).value = 0 ∧
    (modify (sampleStatus (some (pnpSensors [make_pnp_sensor 0]))
        (some "This will remain unchanged."))).state.message =
      (sampleStatus (some (pnpSensors [make_pnp_sensor 0]))
        (some "This will remain unchanged.")).state.message :=
  ⟨rfl, rfl, rfl,
    modify_message_untouched_on_zero
      (sampleStatus (some (pnpSensors [make_pnp_sensor 0]))
        (some "This will remain unchanged."))
      (pnpSensors [make_pnp_sensor 0]) (make_pnp_sensor 0) [] rfl rfl rfl⟩

/-- C5: if there is no people-now-present reading — the sensors field is
wholly absent, or present with an empty people-now-present list —
`StateFromPeopleNowPresent.modify` performs no mutation at all and
returns normally: the whole status, `state.open`, `state.message` and
the sensors field included, is unchanged. -/
theorem modify_no_reading_noop (s : Status)
    (h : s.sensors = none ∨
      ∃ sn, s.sensors = some sn ∧ sn.people_now_present = []) :
    modify s = s := by
  rcases h with h | ⟨sn, hs, hp⟩
  · simp [modify, h]
  · simp [modify, hs, hp]

theorem modify_no_reading_noop_witness :
    ((sampleStatus none none).sensors = none ∨
      ∃ sn, (sampleStatus none none).sensors = some sn ∧
        sn.people_now_present = []) ∧
    modify (sampleStatus none none) = sampleStatus none none :=
  ⟨Or.inl rfl, modify_no_reading_noop (sampleStatus none none) (Or.inl rfl)⟩

/-- C6: `StateFromPeopleNowPresent.modify` consults only the first
people-now-present reading: two statuses that agree on everything except
the readings after the first produce the same resulting state (both
`state.open` and `state.message`). -/
theorem modify_ignores_later_readings
    (s : Status) (sn : Sensors) (r : PeopleNowPresentSensor)
    (t1 t2 : List PeopleNowPresentSensor) :
    (modify { s with sensors := some { sn with people_now_present := r :: t1 } }).state =
    (modify { s with sensors := some { sn with people_now_present := r :: t2 } }).state := by
  by_cases h1 : r.value = 1
  · simp only [modify, Option.some_bind, List.head?_cons, Option.map_some', if_pos h1]
  · by_cases h2 : 1 < r.value
    · simp only [modify, Option.some_bind, List.head?_cons, Option.map_some',
        if_neg h1, if_pos h2]
    · simp only [modify, Option.some_bind, List.head?_cons, Option.map_some',
        if_neg h1, if_neg h2]

/-- C7: applying `StateFromPeopleNowPresent.modify` twice to any status
yields the same status as applying it once (so composition with
unchanged sensor data is idempotent at the level of this modifier). -/
theorem modify_idempotent (s : Status) : modify (modify s) = modify s := by
  rcases s with ⟨sp, lg, ur, loc, ct, ch, ⟨op, msg⟩, sensors⟩
  cases sensors with
  | none => rfl
  | some sn =>
    rcases sn with ⟨pnp, temp⟩
    cases pnp with
    | nil => rfl
    | cons r rest =>
      by_cases h1 : r.value = 1
      · simp only [modify, Option.some_bind, List.head?_cons, Option.map_some', if_pos h1]
      · by_cases h2 : 1 < r.value
        · simp only [modify, Option.some_bind, List.head?_cons, Option.map_some',
            if_neg h1, if_pos h2]
        · simp only [modify, Option.some_bind, List.head?_cons, Option.map_some',
            if_neg h1, if_neg h2]

/-- C9: `StateFromPeopleNowPresent.modify` mutates at most `state.open`
and `state.message`: the identity fields, location, contact,
issue-report channels and the sensors field (all readings included) are
equal before and after the call. -/
theorem modify_frame (s : Status) :
    (modify s).space = s.space ∧ (modify s).logo = s.logo ∧
    (modify s).url = s.url ∧ (modify s).location = s.location ∧
    (modify s).contact = s.contact ∧
    (modify s).issue_report_channels = s.issue_report_channels ∧
    (modify s).sensors = s.sensors := by
  rcases s with ⟨sp, lg, ur, loc, ct, ch, ⟨op, msg⟩, sensors⟩
  cases sensors with
  | none => exact ⟨rfl, rfl, rfl, rfl, rfl, rfl, rfl⟩
  | some sn =>
    rcases sn with ⟨pnp, temp⟩
    cases pnp with
    | nil => exact ⟨rfl, rfl, rfl, rfl, rfl, rfl, rfl⟩
    | cons r rest =>
      by_cases h1 : r.value = 1
      · simp [modify, Option.some_bind, List.head?_cons, Option.map_some', if_pos h1]
      · by_cases h2 : 1 < r.value
        · simp [modify, Option.some_bind, List.head?_cons, Option.map_some',
            if_neg h1, if_pos h2]
        · simp [modify, Option.some_bind, List.head?_cons, Option.map_some',
            if_neg h1, if_neg h2]

/-- C10: whenever `StateFromPeopleNowPresent.modify` sets `state.open`
to `Value true` — that is, whenever the first reading exists and its
value is positive — it also sets `state.message` to some value in the
same call: the open-with-no-message-update case is unreachable. -/
theorem modify_open_true_implies_message
    (s : Status) (sn : Sensors) (r : PeopleNowPresentSensor)
    (rest : List PeopleNowPresentSensor)
    (hs : s.sensors = some sn) (hp : sn.people_now_present = r :: rest)
    (hv : 0 < r.value) :
    (modify s).state.«open» = some true ∧
    ((modify s).state.message).isSome = true := by
  simp only [modify, hs, hp, Option.some_bind, List.head?_cons, Option.map_some']
  rcases Nat.lt_or_ge 1 r.value with h1 | h1
  · have h2 : ¬r.value = 1 := by omega
    simp [h2, h1, hv]
  · have h2 : r.value = 1 := by omega
    simp [h2]

theorem modify_open_true_implies_message_witness :
    (sampleStatus (some (pnpSensors [make_pnp_sensor 1])) none).sensors =
      some (pnpSensors [make_pnp_sensor 1]) ∧
    (pnpSensors [make_pnp_sensor 1]).people_now_present = make_pnp_sensor 1 :: [] ∧
    0 < (make_pnp_sensor 1).value ∧
    ((modify (sampleStatus (some (pnpSensors [make_pnp_sensor 1])) none)).state.«open» =
        some true ∧
      ((modify (sampleStatus (some (pnpSensors [make_pnp_sensor 1])) none)).state.message).isSome =
        true) :=
  ⟨rfl, rfl, by decide,
    modify_open_true_implies_message
      (sampleStatus (some (pnpSensors [make_pnp_sensor 1])) none)
      (pnpSensors [make_pnp_sensor 1]) (make_pnp_sensor 1) [] rfl rfl (by decide)⟩

/-- C8: serialization omits every field whose value is `Absent` (the
field never appears as a key, so in particular it is never emitted as
null) and emits every field whose value is `Value x` with exactly `x`:
stated for each optional field of the status document
(`location.address`, the contact channels, `state.open`,
`state.message`, and the `sensors` container). -/
theorem serializeStatus_omits_absent_emits_value (s : Status) :
    (List.lookup "address" (serializeLocation s.location) =
      s.location.address.map JsonValue.str) ∧
    (s.location.address = none → "address" ∉ keysOf (serializeLocation s.location)) ∧
    (List.lookup "irc" (serializeContact s.contact) = s.contact.irc.map JsonValue.str) ∧
    (s.contact.irc = none → "irc" ∉ keysOf (serializeContact s.contact)) ∧
    (List.lookup "twitter" (serializeContact s.contact) =
      s.contact.twitter.map JsonValue.str) ∧
    (s.contact.twitter = none → "twitter" ∉ keysOf (serializeContact s.contact)) ∧
    (List.lookup "foursquare" (serializeContact s.contact) =
      s.contact.foursquare.map JsonValue.str) ∧
    (s.contact.foursquare = none → "foursquare" ∉ keysOf (serializeContact s.contact)) ∧
    (List.lookup "email" (serializeContact s.contact) =
      s.contact.email.map JsonValue.str) ∧
    (s.contact.email = none → "email" ∉ keysOf (serializeContact s.contact)) ∧
    (List.lookup "open" (serializeState s.state) = s.state.«open».map JsonValue.bool) ∧
    (s.state.«open» = none → "open" ∉ keysOf (serializeState s.state)) ∧
    (List.lookup "message" (serializeState s.state) = s.state.message.map JsonValue.str) ∧
    (s.state.message = none → "message" ∉ keysOf (serializeState s.state)) ∧
    (List.lookup "sensors" (serializeStatus s) = s.sensors.map serializeSensors) ∧
    (s.sensors = none → "sensors" ∉ keysOf (serializeStatus s)) := by
  obtain ⟨sp, lg, ur, ⟨addr, lat, lon⟩, ⟨irc, tw, fs, em⟩, ch, ⟨op, msg⟩, sensors⟩ := s
  refine ⟨?_, ?_, ?_, ?_, ?_, ?_, ?_, ?_, ?_, ?_, ?_, ?_, ?_, ?_, ?_, ?_⟩
  · cases addr <;> simp [serializeLocation, optField, List.lookup]
  · rintro rfl; simp [serializeLocation, optField, keysOf]
  · cases irc <;> cases tw <;> cases fs <;> cases em <;>
      simp [serializeContact, optField, List.lookup]
  · rintro rfl
    cases tw <;> cases fs <;> cases em <;> simp [serializeContact, optField, keysOf]
  · cases irc <;> cases tw <;> cases fs <;> cases em <;>
      simp [serializeContact, optField, List.lookup]
  · rintro rfl
    cases irc <;> cases fs <;> cases em <;> simp [serializeContact, optField, keysOf]
  · cases irc <;> cases tw <;> cases fs <;> cases em <;>
      simp [serializeContact, optField, List.lookup]
  · rintro rfl
    cases irc <;> cases tw <;> cases em <;> simp [serializeContact, optField, keysOf]
  · cases irc <;> cases tw <;> cases fs <;> cases em <;>
      simp [serializeContact, optField, List.lookup]
  · rintro rfl
    cases irc <;> cases tw <;> cases fs <;> simp [serializeContact, optField, keysOf]
  · cases op <;> cases msg <;> simp [serializeState, optField, List.lookup]
  · rintro rfl; cases msg <;> simp [serializeState, optField, keysOf]
  · cases op <;> cases msg <;> simp [serializeState, optField, List.lookup]
  · rintro rfl; cases op <;> simp [serializeState, optField, keysOf]
  · cases sensors <;>
      simp [serializeStatus, serializeState, serializeLocation, serializeContact,
        optField, List.lookup]
  · rintro rfl
    cases addr <;> cases irc <;> cases tw <;> cases fs <;> cases em <;>
        cases op <;> cases msg <;>
      simp [serializeStatus, serializeState, serializeLocation, serializeContact,
        optField, keysOf]

end Spaceapi
